import Mathlib

/-!
Shallow embedding of `src/service_titan_integration.py`
(`ServiceTitanIntegration`), a client wrapper for ServiceTitan's internal
web endpoints, together with theorems settling the specification claims.

Network effects are made explicit: every operation that performs an HTTP
round-trip takes the server's `Response` as an argument, and fallible
Python code is modelled with `Except PyError`.
-/

namespace ServiceTitan

/-- Parsed JSON values, the result of `response.json()` / `json.loads`. -/
inductive Json where
  | null : Json
  | bool (b : Bool) : Json
  | num (n : Int) : Json
  | str (s : String) : Json
  | arr (items : List Json) : Json
  | obj (fields : List (String × Json)) : Json
  deriving Repr

/-- `d.get(key)` on a parsed JSON dict: `None` when the key is absent.
Association lists here model Python dicts with unique keys. -/
def Json.get : Json → String → Option Json
  | .obj fields, key => fields.lookup key
  | _, _ => none

/-- Whether the receiver of a `.get(...)` call is a dict at all; calling
`.get` on any non-dict parsed JSON value raises `AttributeError`. -/
def Json.isObj : Json → Bool
  | .obj _ => true
  | _ => false

/-- Python truthiness of a parsed JSON value (`if x:`). -/
def Json.truthy : Json → Bool
  | .null => false
  | .bool b => b
  | .num n => decide (n ≠ 0)
  | .str s => decide (s ≠ "")
  | .arr items => !items.isEmpty
  | .obj fields => !fields.isEmpty

/-- Python truthiness of an `Optional` value (`None` is falsy). -/
def optTruthy : Option Json → Bool
  | none => false
  | some j => j.truthy

/-- The exceptions the embedded code can raise.

* `integrationAuth` / `integrationAPI` embed the imported
  `IntegrationAuthError` / `IntegrationAPIError` classes; their fields
  follow the constructor arguments used in the source
  (`integration_name`, `message`, `status_code`, optional
  `error_message`).
* `contentTypeError` stands for the exception `response.json()` raises
  when the body is not JSON (`aiohttp.ContentTypeError` /
  `json.JSONDecodeError`).
* `valueError`, `attributeError`, `typeError`, `unicodeDecodeError`
  embed the corresponding Python builtins. -/
inductive PyError where
  | integrationAuth (message : String) (statusCode : Nat) : PyError
  | integrationAPI (integrationName : String) (message : String)
      (statusCode : Nat) (errorMessage : Option String) : PyError
  | contentTypeError : PyError
  | valueError (message : String) : PyError
  | attributeError : PyError
  | typeError : PyError
  | unicodeDecodeError : PyError
  deriving Repr, DecidableEq

/-- Modelled from the spec: the class hierarchy of
`submodule_integrations.utils.errors` is not under `src/`; the spec
says the already-classified errors are "AuthError / ServiceError /
ClientError, i.e. an IntegrationAPIError", so `IntegrationAuthError`
counts as an `IntegrationAPIError` for `isinstance` checks. -/
def PyError.isIntegrationAPIError : PyError → Bool
  | .integrationAuth _ _ => true
  | .integrationAPI _ _ _ _ => true
  | _ => false

/-- Modelled from the spec: `str(e)` for the exception values the code
can wrap.  The errors module is not under `src/`; the spec says wrapped
errors carry "the original exception's message", so a classified
error's `str` is its message.  For the builtins the message passed to
the constructor is returned; `contentTypeError` carries aiohttp's
fixed mimetype complaint. -/
def PyError.toPyStr : PyError → String
  | .integrationAuth message _ => message
  | .integrationAPI _ message _ _ => message
  | .contentTypeError => "Attempt to decode JSON with unexpected mimetype"
  | .valueError message => message
  | .attributeError => "object has no attribute"
  | .typeError => "object is not subscriptable"
  | .unicodeDecodeError => "invalid utf-8 sequence"

/-- An HTTP response as the aiohttp handlers observe it.  `json` is the
result of `response.json()`: `none` means that call raises; `textOk`
records whether the body bytes decode in the resolved charset, i.e.
whether `response.text()` (and the decode step inside
`response.json()`) succeeds — `false` means those calls raise
`UnicodeDecodeError`.  A parsed JSON body entails a decodable body, so
`json = some j` forces `textOk = true` semantically and `textOk` is
only consulted when `json = none` (distinguishing an undecodable body
from a decodable non-JSON one).  `body` is `response.read()`, as
bytes. -/
structure Response where
  status : Nat
  json : Option Json
  textOk : Bool
  body : List Nat
  headers : List (String × String)
  reason : String
  contentType : String
  deriving Repr

/-- ASCII lowercase of a character (HTTP header names are ASCII). -/
def charLower (c : Char) : Char :=
  if 65 ≤ c.toNat ∧ c.toNat ≤ 90 then Char.ofNat (c.toNat + 32) else c

/-- ASCII lowercase of a string. -/
def strLower (s : String) : String := String.mk (s.data.map charLower)

/-- Case-insensitive header lookup, as on aiohttp's `CIMultiDict`
(`r_headers.get("x-message")`). -/
def headersGet (headers : List (String × String)) (key : String) : Option String :=
  (headers.find? fun kv => strLower kv.1 == strLower key).map Prod.snd

/-- `f"{msg}"` applied to an `Optional[str]`: Python renders `None` as
the string `"None"`. -/
def fstrOptStr : Option String → String
  | none => "None"
  | some s => s

/-- What `_handle_response` hands back on success: parsed JSON, or the
raw bytes when the 200 body is not JSON. -/
inductive HandlerResult where
  | json (j : Json) : HandlerResult
  | bytes (b : List Nat) : HandlerResult
  deriving Repr

/-- Python truthiness of a handler result (`if not upload_response:`):
empty bytes and falsy JSON values are falsy. -/
def HandlerResult.truthy : HandlerResult → Bool
  | .json j => j.truthy
  | .bytes b => decide (b ≠ [])

/-- The integration name fixed by `__init__` (`super().__init__("service_titan")`). -/
def integrationName : String := "service_titan"

/-- `self.domain` fixed by `__init__`. -/
def domain : String := "next.servicetitan.com"

/-- `self.url` fixed by `__init__`. -/
def baseUrl : String := "https://" ++ domain

/-- `self.api_url` fixed by `__init__`. -/
def apiUrl : String := baseUrl ++ "/app/api"

/-- `_handle_response` (src lines 38-75).

* 200: `t = await response.text()` (line 44) then
  `data = await response.json()`; the `except` tuple catches only
  `json.decoder.JSONDecodeError` and `aiohttp.ContentTypeError`, so a
  body that fails JSON parsing falls back to the raw bytes, BUT a body
  that is not even decodable text makes line 44 raise
  `UnicodeDecodeError`, which is outside the tuple and escapes.
* otherwise the dead assignment `response_json = await response.json()`
  runs first, so a non-JSON body raises the JSON error (or the decode
  error for an undecodable body) before any status dispatch.
* 401: `IntegrationAuthError("ServiceTitan: Auth failed", 401)`.
* 400: `IntegrationAPIError(name, f"{reason}", 400, reason)`.
* other: `IntegrationAPIError(name, f"{headers.get("x-message")}", status, reason)`. -/
def handleResponse (r : Response) : Except PyError HandlerResult :=
  if r.status = 200 then
    match r.json with
    | some j => .ok (.json j)
    | none =>
      if !r.textOk then .error .unicodeDecodeError
      else .ok (.bytes r.body)
  else
    match r.json with
    | none =>
      if !r.textOk then .error .unicodeDecodeError
      else .error .contentTypeError
    | some _ =>
      if r.status = 401 then
        .error (.integrationAuth "ServiceTitan: Auth failed" 401)
      else if r.status = 400 then
        .error (.integrationAPI integrationName r.reason 400 (some r.reason))
      else
        .error (.integrationAPI integrationName
          (fstrOptStr (headersGet r.headers "x-message")) r.status (some r.reason))

/-- UTF-8 encoding of a single code point. -/
def utf8Bytes (c : Nat) : List Nat :=
  if c < 0x80 then [c]
  else if c < 0x800 then [0xC0 + c / 64, 0x80 + c % 64]
  else if c < 0x10000 then [0xE0 + c / 4096, 0x80 + c / 64 % 64, 0x80 + c % 64]
  else [0xF0 + c / 262144, 0x80 + c / 4096 % 64, 0x80 + c / 64 % 64, 0x80 + c % 64]

/-- `s.encode("utf-8")` as a byte list. -/
def utf8Encode (s : String) : List Nat :=
  s.data.foldr (fun c acc => utf8Bytes c.toNat ++ acc) []

/-- Decode one UTF-8 code point from the front of a byte list, returning
the code point and the remaining bytes; `none` on malformed input
(stray continuation byte, overlong form, surrogate, out of range). -/
def utf8DecodeOne : List Nat → Option (Nat × List Nat)
  | [] => none
  | b :: rest =>
    if b < 0x80 then some (b, rest)
    else if b < 0xC2 then none
    else if b < 0xE0 then
      match rest with
      | b2 :: rest2 =>
        if 0x80 ≤ b2 ∧ b2 < 0xC0 then some ((b - 0xC0) * 64 + (b2 - 0x80), rest2)
        else none
      | _ => none
    else if b < 0xF0 then
      match rest with
      | b2 :: b3 :: rest3 =>
        if 0x80 ≤ b2 ∧ b2 < 0xC0 ∧ 0x80 ≤ b3 ∧ b3 < 0xC0 then
          let cp := (b - 0xE0) * 4096 + (b2 - 0x80) * 64 + (b3 - 0x80)
          if 0x800 ≤ cp ∧ ¬(0xD800 ≤ cp ∧ cp < 0xE000) then some (cp, rest3) else none
        else none
      | _ => none
    else if b < 0xF5 then
      match rest with
      | b2 :: b3 :: b4 :: rest4 =>
        if 0x80 ≤ b2 ∧ b2 < 0xC0 ∧ 0x80 ≤ b3 ∧ b3 < 0xC0 ∧ 0x80 ≤ b4 ∧ b4 < 0xC0 then
          let cp := (b - 0xF0) * 262144 + (b2 - 0x80) * 4096 + (b3 - 0x80) * 64 + (b4 - 0x80)
          if 0x10000 ≤ cp ∧ cp ≤ 0x10FFFF then some (cp, rest4) else none
        else none
      | _ => none
    else none

/-- Fuelled decoding loop; `utf8DecodeOne` consumes at least one byte per
step, so fuel equal to the list length always suffices. -/
def utf8DecodeAux : Nat → List Nat → Option (List Char)
  | _, [] => some []
  | 0, _ :: _ => none
  | fuel + 1, l =>
    match utf8DecodeOne l with
    | some (cp, rest) =>
      match utf8DecodeAux fuel rest with
      | some cs => some (Char.ofNat cp :: cs)
      | none => none
    | none => none

/-- `b.decode("utf-8")`: `none` models `UnicodeDecodeError`. -/
def utf8Decode (b : List Nat) : Option String :=
  (utf8DecodeAux b.length b).map String.mk

/-- The characters `str.strip()` removes (ASCII whitespace). -/
def isPySpace (c : Char) : Bool :=
  [' ', Char.ofNat 9, Char.ofNat 10, Char.ofNat 13, Char.ofNat 11, Char.ofNat 12].contains c

/-- `s.strip()`. -/
def pyStrip (s : String) : String :=
  String.mk (((s.data.dropWhile isPySpace).reverse.dropWhile isPySpace).reverse)

/-- Characters `urllib.parse.quote` leaves unescaped with the default
`safe="/"`: ASCII letters, digits, `_.-~` and `/`. -/
def isQuoteSafe (c : Char) : Bool :=
  c.isAlpha || c.isDigit || ["_", ".", "-", "~", "/"].contains (String.singleton c)

/-- Uppercase hex digit. -/
def hexDigitUpper (n : Nat) : Char :=
  if n < 10 then Char.ofNat (48 + n) else Char.ofNat (55 + n)

/-- `urllib.parse.quote(s)` with the default `safe="/"`: unsafe
characters are UTF-8 encoded and each byte written as `%XX`. -/
def pyQuote (s : String) : String :=
  s.data.foldr
    (fun c acc =>
      if isQuoteSafe c then String.singleton c ++ acc
      else (utf8Bytes c.toNat).foldr
        (fun b acc2 => "%" ++ String.mk [hexDigitUpper (b / 16), hexDigitUpper (b % 16)] ++ acc2)
        acc)
    ""

/-- A single-quote character, for Python `repr` of strings. -/
def squote : String := String.mk [Char.ofNat 39]

/-- Python `repr` of a string, simplified to always use single quotes,
escaping backslash and single quote.  (CPython sometimes switches to
double quotes; no claim observes these strings, they only feed the
`str()` fallback branches below.) -/
def pyReprStr (s : String) : String :=
  squote ++
    (s.data.foldr
      (fun c acc =>
        if c = Char.ofNat 92 then String.mk [Char.ofNat 92, Char.ofNat 92] ++ acc
        else if c = Char.ofNat 39 then String.mk [Char.ofNat 92, Char.ofNat 39] ++ acc
        else String.singleton c ++ acc)
      "") ++ squote

mutual

/-- Python `repr` of a parsed JSON value. -/
def Json.pyRepr : Json → String
  | .null => "None"
  | .bool true => "True"
  | .bool false => "False"
  | .num n => toString n
  | .str s => pyReprStr s
  | .arr items => "[" ++ pyReprArrAux items ++ "]"
  | .obj fields => "\x7b" ++ pyReprObjAux fields ++ "\x7d"

/-- Comma-separated `repr`s of list elements. -/
def pyReprArrAux : List Json → String
  | [] => ""
  | [j] => j.pyRepr
  | j :: rest => j.pyRepr ++ ", " ++ pyReprArrAux rest

/-- Comma-separated `key: value` `repr`s of dict entries. -/
def pyReprObjAux : List (String × Json) → String
  | [] => ""
  | [(k, v)] => pyReprStr k ++ ": " ++ v.pyRepr
  | (k, v) :: rest => pyReprStr k ++ ": " ++ v.pyRepr ++ ", " ++ pyReprObjAux rest

end

/-- Python `str()` of a parsed JSON value: the string itself for a
string, `repr` otherwise. -/
def Json.pyStr : Json → String
  | .str s => s
  | j => j.pyRepr

/-- The fixed multipart boundary token (src line 187). -/
def boundary : String := "----WebKitFormBoundaryCUVolhkgYrclodXz"

/-- The `fields` dict of `_upload_media` (src lines 191-201), in
insertion order. -/
def uploadFields (fileSize : Nat) (contentType uniqueId fileName : String) :
    List (String × String) :=
  [("resumableChunkNumber", "1"),
   ("resumableChunkSize", toString fileSize),
   ("resumableCurrentChunkSize", toString fileSize),
   ("resumableTotalSize", toString fileSize),
   ("resumableType", contentType),
   ("resumableIdentifier", uniqueId),
   ("resumableFilename", fileName),
   ("resumableRelativePath", fileName),
   ("resumableTotalChunks", "1")]

/-- The `form_data` string list of `_upload_media` (src lines 189-210):
three appended strings per regular field, then the three file-part
strings. -/
def formDataStrings (fields : List (String × String)) : List String :=
  (fields.flatMap fun kv =>
    ["--" ++ boundary ++ "\r\n",
     "Content-Disposition: form-data; name=\"" ++ kv.1 ++ "\"\r\n\r\n",
     kv.2 ++ "\r\n"]) ++
  ["--" ++ boundary ++ "\r\n",
   "Content-Disposition: form-data; name=\"file\"; filename=\"blob\"\r\n",
   "Content-Type: application/octet-stream\r\n\r\n"]

/-- The request `body` of `_upload_media` (src lines 211-218):
`"".join(form_data).encode("utf-8") + file_content + final_boundary`. -/
def buildUploadBody (uniqueId contentType fileName : String) (fileContent : List Nat) :
    List Nat :=
  utf8Encode (String.join (formDataStrings
      (uploadFields fileContent.length contentType uniqueId fileName)))
    ++ fileContent
    ++ utf8Encode ("\r\n--" ++ boundary ++ "--\r\n")

/-- `_upload_media` (src lines 183-247).  `uniqueId` stands for the
freshly drawn `str(uuid.uuid4())`; the server's reply to the upload
POST is the explicit `uploadResp` argument.  The whole body runs under
`except Exception`, which wraps EVERY raised exception — classified or
not — into `IntegrationAPIError(500, "Error uploading file: " + str(e))`. -/
def uploadMediaTry (contentType : String) (fileContent : List Nat) (fileName : String)
    (uniqueId : String) (uploadResp : Response) : Except PyError String := do
  let _body := buildUploadBody uniqueId contentType fileName fileContent
  let uploadResponse ← handleResponse uploadResp
  if !uploadResponse.truthy then
    .error (.valueError "Failed to get response from upload endpoint")
  else
    match uploadResponse with
    | .bytes b =>
      match utf8Decode b with
      | some s => .ok (pyStrip s)
      | none => .error .unicodeDecodeError
    | .json j => .ok (pyStrip j.pyStr)

/-- The `except Exception` clause of `_upload_media` (src lines
242-247), applied to the `try` body above. -/
def uploadMedia (contentType : String) (fileContent : List Nat) (fileName : String)
    (uniqueId : String) (uploadResp : Response) : Except PyError String :=
  match uploadMediaTry contentType fileContent fileName uniqueId uploadResp with
  | .ok s => .ok s
  | .error e =>
    .error (.integrationAPI integrationName ("Error uploading file: " ++ e.toPyStr) 500 none)

/-- The public attachment link built for a server-generated filename
(src lines 103 and 142). -/
def linkUrl (name : String) : String :=
  baseUrl ++ "/Attach/Customer?name=" ++ name

/-- The attach endpoint selected by the context kind (src line 153). -/
def attachEndpoint (context : String) : String :=
  baseUrl ++ "/" ++ context ++ "/AddAttachment"

/-- The value `add_attachment` returns on success. -/
structure AddResult where
  success : Bool
  url : String
  deriving Repr, DecidableEq

/-- The `message` argument passed to `IntegrationAPIError` at the
attach step is the raw `Message` value (Python `None` when the key is
absent); the embedding stores error messages as strings, rendering
non-string values with Python `str`.  The difference is unobservable:
every claim exercises a string-valued `Message`. -/
def messageArg : Option Json → String
  | none => "None"
  | some m => m.pyStr

/-- `add_attachment` (src lines 136-181).  The two server replies
(upload POST, attach POST) are the explicit `uploadResp` / `attachResp`
arguments.  The `try` block re-raises an `IntegrationAPIError`
unchanged and wraps any other exception into
`IntegrationAPIError(500, "Error attaching media: " + str(e))`. -/
def addAttachmentTry (contextId : Int) (fileName : String) (fileContent : List Nat)
    (contentType : String) (context : String) (uniqueId : String)
    (uploadResp attachResp : Response) : Except PyError AddResult := do
  let uploadedName ← uploadMedia contentType fileContent fileName uniqueId uploadResp
  let link := linkUrl uploadedName
  let _attachData := Json.obj
    [("id", .num contextId), ("filename", .str uploadedName),
     ("originalFilename", .str fileName)]
  let _urlAttach := attachEndpoint context
  let attachResponse ← handleResponse attachResp
  match attachResponse with
  | .bytes _ => .error .attributeError
  | .json j =>
    if !j.isObj then .error .attributeError
    else
      match j.get "Error" with
      | some errVal =>
        if errVal.truthy then
          if errVal.isObj then
            .error (.integrationAPI integrationName (messageArg (errVal.get "Message")) 404 none)
          else .error .attributeError
        else .ok { success := true, url := link }
      | none => .ok { success := true, url := link }

/-- The `except` clause of `add_attachment` (src lines 173-181),
applied to the `try` body above: re-raise an `IntegrationAPIError`
unchanged, wrap anything else. -/
def addAttachment (contextId : Int) (fileName : String) (fileContent : List Nat)
    (contentType : String) (context : String) (uniqueId : String)
    (uploadResp attachResp : Response) : Except PyError AddResult :=
  match addAttachmentTry contextId fileName fileContent contentType context uniqueId
      uploadResp attachResp with
  | .ok r => .ok r
  | .error e =>
    if e.isIntegrationAPIError then .error e
    else .error (.integrationAPI integrationName ("Error attaching media: " ++ e.toPyStr) 500 none)

/-- One element of the list `fetch_context_media` returns
(src lines 100-109).  `name`, `created` and `id` hold the raw
`item.get(...)` results (`none` is Python `None`). -/
structure Attached where
  name : Option Json
  created : Option Json
  url : String
  id : Option Json
  deriving Repr

/-- The body of the `for item in response` loop (src lines 100-109) for
one item: `item.get` on a non-dict raises `AttributeError`, and
`quote` on a missing or non-string filename raises `TypeError`. -/
def processItem (item : Json) : Except PyError Attached :=
  if !item.isObj then .error .attributeError
  else
    match item.get "filename" with
    | some (.str s) =>
      .ok { name := item.get "title", created := item.get "createdOn",
             url := linkUrl (pyQuote s), id := item.get "id" }
    | some _ => .error .typeError
    | none => .error .typeError

/-- The `for item in response` loop itself: items processed in order,
the first failure aborting the call. -/
def processItems : List Json → Except PyError (List Attached)
  | [] => .ok []
  | item :: rest => do
    let a ← processItem item
    let tail ← processItems rest
    pure (a :: tail)

/-- `fetch_context_media` (src lines 90-111).  The server's reply to
the listing GET is the explicit `resp` argument.  Iterating a non-list
200 payload follows Python semantics: an empty dict/string/bytes body
iterates zero times (empty result), a non-empty one feeds non-dict
items to `item.get` (`AttributeError`), and a non-iterable payload
raises `TypeError`. -/
def fetchContextMedia (contextType : Nat) (contextId : Int) (resp : Response) :
    Except PyError (List Attached) := do
  let _url := apiUrl ++ "/fam/attachments/" ++ toString contextType ++ "/" ++ toString contextId
  let response ← handleResponse resp
  match response with
  | .json (.arr items) => processItems items
  | .json (.obj fields) => if fields.isEmpty then .ok [] else .error .attributeError
  | .json (.str s) => if s.isEmpty then .ok [] else .error .attributeError
  | .json .null => .error .typeError
  | .json (.num _) => .error .typeError
  | .json (.bool _) => .error .typeError
  | .bytes b => if b.isEmpty then .ok [] else .error .attributeError

/-- `d[k] = v` on a Python dict: update in place when the key exists,
append otherwise (insertion order preserved). -/
def dictSet (d : List (String × String)) (k v : String) : List (String × String) :=
  if d.any (fun kv => kv.1 == k) then
    d.map (fun kv => if kv.1 == k then (k, v) else kv)
  else d ++ [(k, v)]

/-- `d.update(kvs)` on a Python dict. -/
def dictUpdate (d kvs : List (String × String)) : List (String × String) :=
  kvs.foldl (fun acc kv => dictSet acc kv.1 kv.2) d

/-- The mutable per-instance state of `ServiceTitanIntegration`:
`self.headers`, set once by `initialize`.  (`self.domain`, `self.url`,
`self.api_url`, `self.user_agent` are fixed in `__init__` and never
reassigned; `self.network_requester` only selects the transport.) -/
structure ClientState where
  userAgent : String
  headers : List (String × String)
  deriving Repr

/-- `initialize` (src lines 77-88): builds the fixed header dict and
stores the cookie.  `cookieToken` is the cookie string (a dict token is
first converted by the external `cookie_dict_to_string` helper, outside
this repository). -/
def initClient (userAgent cookieToken : String) : ClientState :=
  { userAgent,
    headers :=
      dictSet
        [("Host", domain), ("User-Agent", userAgent),
         ("Accept", "application/json"), ("X-Requested-With", "XMLHttpRequest")]
        "Cookie" cookieToken }

/-- The per-call header copy mutated by `download_image`
(src lines 114-116): `self.headers.copy()` then two item assignments. -/
def downloadImageHeaders (st : ClientState) : List (String × String) :=
  dictSet
    (dictSet st.headers "Accept" "image/avif,image/webp,image/apng,image/svg+xml,image/*,*/*;q=0.8")
    "Accept-Encoding" "gzip, deflate"

/-- The per-call header copy mutated by `add_attachment`
(src lines 149-151). -/
def addAttachmentHeaders (st : ClientState) : List (String × String) :=
  dictSet (dictSet st.headers "Content-Type" "application/json") "Accept" "application/json"

/-- The per-call header copy mutated by `_upload_media`
(src lines 220-225): `self.headers.copy()` then `.update(...)`. -/
def uploadMediaHeaders (st : ClientState) : List (String × String) :=
  dictUpdate st.headers
    [("Accept", "*/*"), ("X-Requested-With", "XMLHttpRequest"),
     ("Content-Type", "multipart/form-data; boundary=" ++ boundary)]

/-- The value `download_image` returns on a 200. -/
structure ImageData where
  bytes : List Nat
  contentType : String
  deriving Repr

/-- `download_image` (src lines 113-134), threaded through the client
state: the pair's second component is the state after the call.  The
method reads `self.headers` only through a per-call copy and assigns no
instance attribute. -/
def downloadImageS (st : ClientState) (resp : Response) :
    (Except PyError ImageData × List (String × String)) × ClientState :=
  let headers := downloadImageHeaders st
  let result : Except PyError ImageData :=
    if resp.status = 200 then
      .ok { bytes := resp.body, contentType := resp.contentType }
    else
      .error (.integrationAPI integrationName
        ("Failed to download image: " ++ toString resp.status) resp.status (some resp.reason))
  ((result, headers), st)

/-- `fetch_context_media` threaded through the client state: it passes
`self.headers` to the request directly and assigns no instance
attribute. -/
def fetchContextMediaS (st : ClientState) (contextType : Nat) (contextId : Int)
    (resp : Response) :
    (Except PyError (List Attached) × List (String × String)) × ClientState :=
  ((fetchContextMedia contextType contextId resp, st.headers), st)

/-- `_upload_media` threaded through the client state. -/
def uploadMediaS (st : ClientState) (contentType : String) (fileContent : List Nat)
    (fileName uniqueId : String) (uploadResp : Response) :
    (Except PyError String × List (String × String)) × ClientState :=
  ((uploadMedia contentType fileContent fileName uniqueId uploadResp,
    uploadMediaHeaders st), st)

/-- `add_attachment` threaded through the client state (the attach POST
uses the mutated per-call copy; the nested `_upload_media` call makes
its own copy). -/
def addAttachmentS (st : ClientState) (contextId : Int) (fileName : String)
    (fileContent : List Nat) (contentType context uniqueId : String)
    (uploadResp attachResp : Response) :
    (Except PyError AddResult × List (String × String)) × ClientState :=
  ((addAttachment contextId fileName fileContent contentType context uniqueId
      uploadResp attachResp,
    addAttachmentHeaders st), st)

/-! Concrete responses used by the theorems and witnesses below. -/

/-- An upload reply: HTTP 200 whose body is the raw bytes
`b"gen123.jpg"` (no JSON envelope, so `response.json()` raises). -/
def uploadGenResp : Response :=
  { status := 200, json := none, textOk := true, body := utf8Encode "gen123.jpg",
    headers := [("Content-Type", "text/plain")], reason := "OK",
    contentType := "text/plain" }

/-- An attach reply: HTTP 200 whose JSON body is the empty object (no
`Error` key). -/
def attachEmptyResp : Response :=
  { status := 200, json := some (.obj []), textOk := true, body := [],
    headers := [], reason := "OK", contentType := "application/json" }

/-- An attach reply: HTTP 200 whose JSON body carries an in-body error
object with the given message. -/
def attachErrorResp (msg : String) : Response :=
  { status := 200, json := some (.obj [("Error", .obj [("Message", .str msg)])]),
    textOk := true, body := [], headers := [], reason := "OK", contentType := "application/json" }

/-- A 401 reply whose body parses as JSON. -/
def resp401Json : Response :=
  { status := 401, json := some (.obj [("title", .str "Unauthorized")]),
    textOk := true, body := [], headers := [], reason := "Unauthorized",
    contentType := "application/json" }

/-- A 401 reply whose body is not JSON (for example an HTML error
page), so `response.json()` raises. -/
def resp401Bytes : Response :=
  { status := 401, json := none, textOk := true,
    body := utf8Encode "<html>Unauthorized</html>",
    headers := [], reason := "Unauthorized", contentType := "text/html" }

/-- A 500 reply with a JSON body and no `x-message` header. -/
def resp500Plain : Response :=
  { status := 500, json := some (.obj []), textOk := true, body := [],
    headers := [], reason := "Internal Server Error",
    contentType := "application/json" }

/-- A 500 reply with a JSON body and an `X-Message` header (matched
case-insensitively by `CIMultiDict.get("x-message")`). -/
def resp500WithMsg : Response :=
  { status := 500, json := some (.obj []), textOk := true, body := [],
    headers := [("X-Message", "vendor says no")], reason := "Internal Server Error",
    contentType := "application/json" }

/-- A 200 reply whose body bytes (`b"\xff"`) are not decodable text in
the resolved charset: `response.text()` on line 44 raises
`UnicodeDecodeError`, which the `except` tuple does not catch. -/
def resp200Undecodable : Response :=
  { status := 200, json := none, textOk := false, body := [0xFF],
    headers := [("Content-Type", "application/json")], reason := "OK",
    contentType := "application/json" }

/-!  Theorems settling the specification claims.  -/

/-- C1: For every context id and context kind (and every file name,
content, declared content type and generated identifier), if the upload
endpoint responds successfully with the bytes `b"gen123.jpg"` and the
attach endpoint responds with an empty JSON object (no `Error` key),
then `add_attachment` returns a value with `success = true` and `url`
equal to the public attachment link
`https://next.servicetitan.com/Attach/Customer?name=gen123.jpg` built
from the server-generated filename. -/
theorem c1_add_attachment_success (contextId : Int) (fileName : String)
    (fileContent : List Nat) (contentType context uniqueId : String) :
    addAttachment contextId fileName fileContent contentType context uniqueId
      uploadGenResp attachEmptyResp
    = .ok { success := true,
            url := "https://next.servicetitan.com/Attach/Customer?name=gen123.jpg" } := rfl

/-- C2 counterexample: a 401 response whose body is not JSON does not
raise the authentication error kind — the unconditional
`response_json = await response.json()` on line 52 raises the JSON
error first, so the claim "regardless of the response body's content"
is false. -/
theorem c2_counterexample :
    handleResponse resp401Bytes = .error .contentTypeError ∧
    PyError.contentTypeError ≠ PyError.integrationAuth "ServiceTitan: Auth failed" 401 :=
  ⟨rfl, by decide⟩

/-- C2 amended: for every HTTP response with status 401 whose body
parses as JSON, the response handler raises the authentication error
kind (and never any other error kind); a 401 whose body is not JSON
instead propagates the JSON parsing error. -/
theorem c2_amended (r : Response) (j : Json) (h401 : r.status = 401)
    (hjson : r.json = some j) :
    handleResponse r = .error (.integrationAuth "ServiceTitan: Auth failed" 401) := by
  simp [handleResponse, h401, hjson]

/-- C2 witness: the amended theorem applied to a concrete 401 JSON
response. -/
theorem c2_witness :
    handleResponse resp401Json = .error (.integrationAuth "ServiceTitan: Auth failed" 401) :=
  c2_amended resp401Json (.obj [("title", .str "Unauthorized")]) rfl rfl

/-- C3: for every attach-step response that is an HTTP 200 whose JSON
body contains an `Error` object with a `Message` field, `add_attachment`
raises an `IntegrationAPIError` whose message equals that `Message`
field, rather than returning success. -/
theorem c3_attach_error_surfaced (msg : String) (contextId : Int) (fileName : String)
    (fileContent : List Nat) (contentType context uniqueId : String) :
    addAttachment contextId fileName fileContent contentType context uniqueId
      uploadGenResp (attachErrorResp msg)
    = .error (.integrationAPI "service_titan" msg 404 none) := rfl

/-- C6 counterexample: for a non-200/400/401 response without an
`x-message` header, the raised error's message is the literal string
`"None"` (Python's rendering of `None` under `f"{msg}"`), not the HTTP
reason phrase. -/
theorem c6_counterexample :
    handleResponse resp500Plain
      = .error (.integrationAPI "service_titan" "None" 500 (some "Internal Server Error")) ∧
    "None" ≠ "Internal Server Error" :=
  ⟨rfl, by decide⟩

/-- C6 amended: for every HTTP response with a status other than
200, 400 and 401 whose body parses as JSON, the handler raises an
`IntegrationAPIError` whose message is the `x-message` header value
when that header is present, and the literal string `"None"` (not the
reason phrase) when it is absent; a non-JSON body instead propagates
the JSON parsing error. -/
theorem c6_amended (r : Response) (j : Json)
    (h200 : r.status ≠ 200) (h400 : r.status ≠ 400) (h401 : r.status ≠ 401)
    (hjson : r.json = some j) :
    (∀ m, headersGet r.headers "x-message" = some m →
      handleResponse r = .error (.integrationAPI integrationName m r.status (some r.reason))) ∧
    (headersGet r.headers "x-message" = none →
      handleResponse r = .error (.integrationAPI integrationName "None" r.status (some r.reason))) := by
  constructor
  · intro m hm
    simp [handleResponse, h200, h400, h401, hjson, fstrOptStr, hm]
  · intro hm
    simp [handleResponse, h200, h400, h401, hjson, fstrOptStr, hm]

/-- C6 witness: the amended theorem applied to a concrete 500 response
carrying an `X-Message` header. -/
theorem c6_witness :
    handleResponse resp500WithMsg
      = .error (.integrationAPI integrationName "vendor says no" 500
          (some "Internal Server Error")) :=
  (c6_amended resp500WithMsg (.obj []) (by decide) (by decide) (by decide) rfl).1
    "vendor says no" rfl

/-- C7 counterexample: a 200 response whose body bytes are not
decodable text (here `b"\xff"` declared as `application/json`) fails to
parse as JSON, yet the handler does not return the raw bytes — line
44's `response.text()` raises `UnicodeDecodeError`, which is outside
the `except (json.decoder.JSONDecodeError, aiohttp.ContentTypeError)`
tuple and escapes. -/
theorem c7_counterexample :
    handleResponse resp200Undecodable = .error .unicodeDecodeError ∧
    resp200Undecodable.status = 200 ∧
    resp200Undecodable.json = none ∧
    handleResponse resp200Undecodable ≠ .ok (.bytes resp200Undecodable.body) :=
  ⟨rfl, rfl, rfl, fun h => Except.noConfusion h⟩

/-- C7 amended: for every HTTP response with status 200, if the body
decodes as text but fails to parse as JSON the handler returns the raw
response bytes without raising, and if it parses the parsed JSON value
is returned; a 200 body that is not decodable text instead raises
`UnicodeDecodeError` (uncaught by the handler's `except` tuple). -/
theorem c7_amended (r : Response) (h : r.status = 200) :
    (r.textOk = true → r.json = none → handleResponse r = .ok (.bytes r.body)) ∧
    (∀ j, r.json = some j → handleResponse r = .ok (.json j)) ∧
    (r.textOk = false → r.json = none → handleResponse r = .error .unicodeDecodeError) := by
  refine ⟨?_, ?_, ?_⟩
  · intro ht hj; simp [handleResponse, h, hj, ht]
  · intro j hj; simp [handleResponse, h, hj]
  · intro ht hj; simp [handleResponse, h, hj, ht]

/-- C7 witness: the amended theorem applied to a concrete 200 response
with a decodable non-JSON body. -/
theorem c7_witness :
    handleResponse uploadGenResp = .ok (.bytes (utf8Encode "gen123.jpg")) :=
  (c7_amended uploadGenResp rfl).1 rfl rfl

/-- C9: every operation invoked after `initialize` leaves the client's
stored header set unchanged; operations that need different headers
(download, attach, upload) derive them on a per-call copy, so for
example the stored `Accept` header still reads `application/json`
while the download call sends its image `Accept` variant. -/
theorem c9_headers_read_only (st : ClientState) (contextType : Nat) (contextId : Int)
    (fileName : String) (fileContent : List Nat)
    (contentType context uniqueId : String) (r1 r2 r3 r4 r5 : Response) :
    ((downloadImageS st r1).2).headers = st.headers ∧
    ((fetchContextMediaS st contextType contextId r2).2).headers = st.headers ∧
    ((uploadMediaS st contentType fileContent fileName uniqueId r3).2).headers = st.headers ∧
    ((addAttachmentS st contextId fileName fileContent contentType context uniqueId
        r4 r5).2).headers = st.headers ∧
    (∀ userAgent cookieToken,
      headersGet (downloadImageHeaders (initClient userAgent cookieToken)) "Accept"
        = some "image/avif,image/webp,image/apng,image/svg+xml,image/*,*/*;q=0.8" ∧
      headersGet (initClient userAgent cookieToken).headers "Accept"
        = some "application/json") :=
  ⟨rfl, rfl, rfl, rfl, fun _ _ => ⟨rfl, rfl⟩⟩

/-- Spec-side description of one regular multipart field part
(boundary line, `Content-Disposition` header naming the field, blank
line, value, CRLF), written from the spec's wording for comparison
with the source's builder. -/
def fieldPart (k v : String) : String :=
  "--" ++ boundary ++ "\r\n" ++
  "Content-Disposition: form-data; name=\"" ++ k ++ "\"\r\n\r\n" ++
  v ++ "\r\n"

/-- Spec-side description of the single file part header: fixed
placeholder filename `blob` and fixed `application/octet-stream`
content type. -/
def filePartHeader : String :=
  "--" ++ boundary ++ "\r\n" ++
  "Content-Disposition: form-data; name=\"file\"; filename=\"blob\"\r\n" ++
  "Content-Type: application/octet-stream\r\n\r\n"

/-- C4: for every input file (any byte content, any length, any
declared content type), the multipart upload body is exactly the nine
fixed resumable-upload form fields in order (chunk number 1, chunk
size = current chunk size = total size = file size, type, identifier,
filename, relative path, total chunks 1), then exactly one file part
whose part filename is the fixed placeholder `blob` and whose part
content type is `application/octet-stream` regardless of the caller's
declared content type, then the raw file bytes and the closing
boundary. -/
theorem c4_upload_body_shape (uniqueId contentType fileName : String) (fileContent : List Nat) :
    buildUploadBody uniqueId contentType fileName fileContent =
      utf8Encode
        (fieldPart "resumableChunkNumber" "1" ++
         fieldPart "resumableChunkSize" (toString fileContent.length) ++
         fieldPart "resumableCurrentChunkSize" (toString fileContent.length) ++
         fieldPart "resumableTotalSize" (toString fileContent.length) ++
         fieldPart "resumableType" contentType ++
         fieldPart "resumableIdentifier" uniqueId ++
         fieldPart "resumableFilename" fileName ++
         fieldPart "resumableRelativePath" fileName ++
         fieldPart "resumableTotalChunks" "1" ++
         filePartHeader)
      ++ fileContent
      ++ utf8Encode ("\r\n--" ++ boundary ++ "--\r\n") := by
  simp [buildUploadBody, formDataStrings, uploadFields, String.join, fieldPart,
    filePartHeader, String.append_assoc]

/-- C5 counterexample: an already-classified error raised during the
upload step is NOT re-raised unchanged.  A 401 during the upload POST
raises `IntegrationAuthError` inside `_upload_media`, whose blanket
`except Exception` wraps it into a fresh
`IntegrationAPIError(500, "Error uploading file: ...")`; the error
`add_attachment` finally raises differs from the classified original. -/
theorem c5_counterexample :
    addAttachment 1 "a.png" [] "image/png" "Customer" "uid" resp401Json attachEmptyResp
      = .error (.integrationAPI "service_titan"
          "Error uploading file: ServiceTitan: Auth failed" 500 none) ∧
    handleResponse resp401Json = .error (.integrationAuth "ServiceTitan: Auth failed" 401) ∧
    PyError.integrationAPI "service_titan"
        "Error uploading file: ServiceTitan: Auth failed" 500 none
      ≠ PyError.integrationAuth "ServiceTitan: Auth failed" 401 :=
  ⟨rfl, rfl, by decide⟩

/-- C5 amended: exceptions raised during the upload step — classified
or not — are wrapped by `_upload_media` into exactly one
`IntegrationAPIError(500)` carrying `"Error uploading file: " +` the
original message, which `add_attachment` then re-raises unchanged;
only during the attach step is an already-classified error re-raised
unchanged, with any other exception wrapped into exactly one
`IntegrationAPIError(500)` carrying `"Error attaching media: " +` the
original message. -/
theorem c5_amended (contextId : Int) (fileName : String) (fileContent : List Nat)
    (contentType context uniqueId : String) (uploadResp attachResp : Response) :
    (∀ e, handleResponse uploadResp = .error e →
      addAttachment contextId fileName fileContent contentType context uniqueId
          uploadResp attachResp
        = .error (.integrationAPI integrationName
            ("Error uploading file: " ++ e.toPyStr) 500 none)) ∧
    (∀ nm e, uploadMedia contentType fileContent fileName uniqueId uploadResp = .ok nm →
      handleResponse attachResp = .error e →
      addAttachment contextId fileName fileContent contentType context uniqueId
          uploadResp attachResp
        = if e.isIntegrationAPIError then .error e
          else .error (.integrationAPI integrationName
              ("Error attaching media: " ++ e.toPyStr) 500 none)) := by
  constructor
  · intro e he
    simp [addAttachment, addAttachmentTry, uploadMedia, uploadMediaTry, he,
      PyError.isIntegrationAPIError, bind, Except.bind, Bind.bind, Monad.toBind,
      Except.instMonad]
  · intro nm e h1 h2
    simp [addAttachment, addAttachmentTry, h1, h2, bind, Except.bind, Bind.bind,
      Monad.toBind, Except.instMonad]

/-- C5 witness: the amended theorem's upload-step clause applied to a
concrete 401 reply to the upload POST. -/
theorem c5_witness :
    addAttachment 1 "a.png" [] "image/png" "Customer" "uid" resp401Json attachEmptyResp
      = .error (.integrationAPI integrationName
          ("Error uploading file: " ++
            (PyError.integrationAuth "ServiceTitan: Auth failed" 401).toPyStr) 500 none) :=
  (c5_amended 1 "a.png" [] "image/png" "Customer" "uid" resp401Json attachEmptyResp).1
    (.integrationAuth "ServiceTitan: Auth failed" 401) rfl

/-- Helper: on a list of items that each carry a string `filename`,
the item loop of `fetch_context_media` succeeds, preserves length and
order, and percent-encodes each filename into the produced URL. -/
theorem processItems_ok (items : List Json)
    (hwf : ∀ j ∈ items, ∃ s, j.get "filename" = some (Json.str s)) :
    ∃ outs, processItems items = .ok outs ∧ outs.length = items.length ∧
      (∀ (i : Nat) (j : Json) (s : String), items[i]? = some j → j.get "filename" = some (Json.str s) →
        ∃ a, outs[i]? = some a ∧ a.url = linkUrl (pyQuote s)) := by
  induction items with
  | nil =>
    refine ⟨[], rfl, rfl, ?_⟩
    intro i j s h
    simp at h
  | cons item rest ih =>
    obtain ⟨s, hs⟩ := hwf item (by simp)
    have hobj : item.isObj = true := by
      cases item <;> simp_all [Json.get, Json.isObj]
    have hpi : processItem item = .ok
        { name := item.get "title", created := item.get "createdOn",
          url := linkUrl (pyQuote s), id := item.get "id" } := by
      simp [processItem, hobj, hs, pure, Except.pure]
    obtain ⟨outs, h1, h2, h3⟩ := ih (fun j hj => hwf j (by simp [hj]))
    refine ⟨{ name := item.get "title", created := item.get "createdOn",
              url := linkUrl (pyQuote s), id := item.get "id" } :: outs,
            ?_, by simp [h2], ?_⟩
    · simp [processItems, hpi, h1, bind, Except.bind, Bind.bind, Monad.toBind,
        Except.instMonad, pure, Except.pure]
    · intro i j s2 hget hfn
      cases i with
      | zero =>
        simp at hget
        subst hget
        rw [hs] at hfn
        injection hfn with h4
        injection h4 with h5
        subst h5
        exact ⟨{ name := item.get "title", created := item.get "createdOn",
                 url := linkUrl (pyQuote s), id := item.get "id" }, by simp, rfl⟩
      | succ n =>
        simp at hget
        simp only [List.getElem?_cons_succ]
        exact h3 n j s2 hget hfn

/-- C8: for every attachment-listing response (a 200 whose JSON body is
a list of items, each with a string filename), `fetch_context_media`
returns a sequence whose length equals the number of input items, in
server order, where the i-th output URL embeds the i-th item's
filename percent-encoded; an empty input list yields an empty output
sequence, not an error. -/
theorem c8_fetch_media_list (contextType : Nat) (contextId : Int) (resp : Response)
    (items : List Json) (h200 : resp.status = 200)
    (hjson : resp.json = some (.arr items))
    (hwf : ∀ j ∈ items, ∃ s, j.get "filename" = some (Json.str s)) :
    ∃ outs, fetchContextMedia contextType contextId resp = .ok outs ∧
      outs.length = items.length ∧ (items = [] → outs = []) ∧
      (∀ (i : Nat) (j : Json) (s : String), items[i]? = some j → j.get "filename" = some (Json.str s) →
        ∃ a, outs[i]? = some a ∧ a.url = linkUrl (pyQuote s)) := by
  obtain ⟨outs, h1, h2, h3⟩ := processItems_ok items hwf
  have hr : handleResponse resp = .ok (.json (.arr items)) := by
    simp [handleResponse, h200, hjson]
  refine ⟨outs, ?_, h2, ?_, h3⟩
  · simp [fetchContextMedia, hr, bind, Except.bind, Bind.bind, Monad.toBind,
      Except.instMonad]
    exact h1
  · intro hnil
    subst hnil
    exact List.length_eq_zero.mp h2

/-- A listing item as the server returns it. -/
def mediaItemEx : Json :=
  .obj [("id", .num 7), ("filename", .str "a b.jpg"), ("title", .str "Photo"),
        ("createdOn", .str "2024-01-01")]

/-- A listing reply: HTTP 200 whose JSON body is a one-item list. -/
def listRespEx : Response :=
  { status := 200, json := some (.arr [mediaItemEx]), textOk := true, body := [],
    headers := [], reason := "OK", contentType := "application/json" }

/-- C8 witness: the theorem applied to a concrete one-item listing
whose filename needs percent-encoding. -/
theorem c8_witness :
    ∃ outs, fetchContextMedia 1 2 listRespEx = .ok outs ∧
      outs.length = [mediaItemEx].length ∧ ([mediaItemEx] = ([] : List Json) → outs = []) ∧
      (∀ (i : Nat) (j : Json) (s : String), [mediaItemEx][i]? = some j → j.get "filename" = some (Json.str s) →
        ∃ a, outs[i]? = some a ∧ a.url = linkUrl (pyQuote s)) :=
  c8_fetch_media_list 1 2 listRespEx [mediaItemEx] rfl rfl
    (by intro j hj; simp at hj; subst hj; exact ⟨"a b.jpg", rfl⟩)

/-- Helper: any success value the attach `try` body produces carries a
URL of the fixed `/Attach/Customer?name=` shape. -/
theorem addAttachmentTry_ok_url (contextId : Int) (fileName : String)
    (fileContent : List Nat) (contentType context uniqueId : String)
    (uploadResp attachResp : Response) (r : AddResult)
    (h : addAttachmentTry contextId fileName fileContent contentType context uniqueId
        uploadResp attachResp = .ok r) :
    ∃ nm, r.url = linkUrl nm := by
  simp only [addAttachmentTry, bind, Except.bind] at h
  split at h
  · simp at h
  · split at h
    · simp at h
    · split at h
      · simp at h
      · split at h
        · simp at h
        · split at h
          · split at h
            · split at h
              · simp at h
              · simp at h
            · cases h
              exact ⟨_, rfl⟩
          · cases h
            exact ⟨_, rfl⟩

/-- Helper: any success value `add_attachment` returns carries a URL of
the fixed `/Attach/Customer?name=` shape. -/
theorem addAttachment_ok_url (contextId : Int) (fileName : String)
    (fileContent : List Nat) (contentType context uniqueId : String)
    (uploadResp attachResp : Response) (r : AddResult)
    (h : addAttachment contextId fileName fileContent contentType context uniqueId
        uploadResp attachResp = .ok r) :
    ∃ nm, r.url = linkUrl nm := by
  rw [addAttachment] at h
  split at h
  · rename_i r0 hT
    cases h
    exact addAttachmentTry_ok_url _ _ _ _ _ _ _ _ _ hT
  · rename_i e hT
    split at h <;> simp at h

/-- Helper: the loop body produces only URLs of the fixed
`/Attach/Customer?name=` shape. -/
theorem processItem_ok_url (item : Json) (a : Attached)
    (h : processItem item = .ok a) : ∃ nm, a.url = linkUrl nm := by
  simp only [processItem] at h
  split at h
  · simp at h
  · split at h
    · cases h
      exact ⟨_, rfl⟩
    · simp at h
    · simp at h

/-- Helper: every element the item loop produces carries a URL of the
fixed `/Attach/Customer?name=` shape. -/
theorem processItems_ok_url (items : List Json) (outs : List Attached)
    (h : processItems items = .ok outs) :
    ∀ a ∈ outs, ∃ nm, a.url = linkUrl nm := by
  induction items generalizing outs with
  | nil =>
    cases h
    intro a ha
    simp at ha
  | cons item rest ih =>
    simp only [processItems, bind, Except.bind] at h
    split at h
    · simp at h
    · rename_i a0 hpi
      split at h
      · simp at h
      · rename_i tail hpr
        simp only [pure, Except.pure] at h
        cases h
        intro a ha
        rcases List.mem_cons.mp ha with ha0 | hat
        · subst ha0
          exact processItem_ok_url item a hpi
        · exact ih tail hpr a hat

/-- Helper: every element `fetch_context_media` returns carries a URL
of the fixed `/Attach/Customer?name=` shape. -/
theorem fetchContextMedia_ok_url (contextType : Nat) (contextId : Int)
    (resp : Response) (outs : List Attached)
    (h : fetchContextMedia contextType contextId resp = .ok outs) :
    ∀ a ∈ outs, ∃ nm, a.url = linkUrl nm := by
  simp only [fetchContextMedia, bind, Except.bind] at h
  split at h
  · simp at h
  · split at h
    · exact processItems_ok_url _ outs h
    · split at h
      · cases h; intro a ha; simp at ha
      · simp at h
    · split at h
      · cases h; intro a ha; simp at ha
      · simp at h
    · simp at h
    · simp at h
    · simp at h
    · split at h
      · cases h; intro a ha; simp at ha
      · simp at h

/-- C10: for every context kind and context id, the public download
URL handed back by both `fetch_context_media` and `add_attachment` is
always built on the fixed path `/Attach/Customer?name=<filename>`: the
context kind selects the attach endpoint that is POSTed to
(`<base>/<context>/AddAttachment`), but never affects the URL handed
back to the caller (both operations' results are independent of the
context argument). -/
theorem c10_fixed_url_path (contextId : Int) (fileName : String) (fileContent : List Nat)
    (contentType contextA contextB uniqueId : String) (uploadResp attachResp : Response)
    (typeA typeB : Nat) (listId : Int) (listResp : Response) :
    (addAttachment contextId fileName fileContent contentType contextA uniqueId
        uploadResp attachResp
      = addAttachment contextId fileName fileContent contentType contextB uniqueId
          uploadResp attachResp) ∧
    (∀ r, addAttachment contextId fileName fileContent contentType contextA uniqueId
        uploadResp attachResp = .ok r →
      ∃ nm, r.url = baseUrl ++ "/Attach/Customer?name=" ++ nm) ∧
    (fetchContextMedia typeA listId listResp = fetchContextMedia typeB listId listResp) ∧
    (∀ outs, fetchContextMedia typeA listId listResp = .ok outs →
      ∀ a ∈ outs, ∃ nm, a.url = baseUrl ++ "/Attach/Customer?name=" ++ nm) ∧
    (attachEndpoint contextA = baseUrl ++ "/" ++ contextA ++ "/AddAttachment") := by
  refine ⟨rfl, ?_, rfl, ?_, rfl⟩
  · intro r h
    exact addAttachment_ok_url _ _ _ _ _ _ _ _ _ h
  · intro outs h a ha
    exact fetchContextMedia_ok_url _ _ _ _ h a ha

/-- C10 witness: the theorem applied at concrete inputs, its two
implications discharged by evaluating `add_attachment` on the
`gen123.jpg` round trip. -/
theorem c10_witness :
    ∃ nm, (AddResult.mk true
        "https://next.servicetitan.com/Attach/Customer?name=gen123.jpg").url
      = baseUrl ++ "/Attach/Customer?name=" ++ nm :=
  (c10_fixed_url_path 1 "a.png" [] "image/png" "Job" "Customer" "uid"
      uploadGenResp attachEmptyResp 1 2 3 listRespEx).2.1
    (AddResult.mk true
      "https://next.servicetitan.com/Attach/Customer?name=gen123.jpg") rfl

end ServiceTitan
